import Mathlib

/-!
Shallow embedding of the authenticated API gateway client of the
movielens-recommender frontend (src/utils/api.ts), together with the
identifier-validation helper of the movie-details page
(src/unnamed/part_001).  Definitions are translated from the TypeScript
source; theorems settle the specification claims about them.
-/

namespace Gateway

/-- A JSON-like value, the shape of request/response bodies
(`response.data` in the source). -/
inductive JsonValue where
  | null : JsonValue
  | bool (b : Bool) : JsonValue
  | num (n : Int) : JsonValue
  | str (s : String) : JsonValue
  | arr (xs : List JsonValue) : JsonValue
  | obj (fields : List (String × JsonValue)) : JsonValue

namespace JsonValue

/-- JavaScript truthiness of a value (`null`, `false`, `0` and the empty
string are falsy; arrays and objects are always truthy). -/
def truthy : JsonValue → Bool
  | .null => false
  | .bool b => b
  | .num n => n != 0
  | .str s => s ≠ ""
  | .arr _ => true
  | .obj _ => true

/-- Property access `v.k` in JavaScript: defined only on objects; the first
binding of the key (objects here carry no duplicate keys). -/
def get (v : JsonValue) (k : String) : Option JsonValue :=
  match v with
  | .obj fields => fields.lookup k
  | _ => none

/-- `Array.isArray`. -/
def isArray : JsonValue → Bool
  | .arr _ => true
  | _ => false

end JsonValue

/-- A Supabase session: an access/refresh token pair
(`data.session` from `supabase.auth.getSession()` / `refreshSession()`). -/
structure Session where
  access_token : String
  refresh_token : String
deriving DecidableEq, Repr

/-- The headers object of an axios request config.  The instance is created
with a JSON content type (api.ts line 12); `Authorization` is absent until
the request interceptor (or the 401 retry path) sets it. -/
structure Headers where
  contentType : String
  authorization : Option String
deriving DecidableEq, Repr

/-- An axios request config (`config` / `error.config` in the source):
URL, method, headers.  Axios configs are open records, so a client could
in principle attach a `_retry` property; the source never reads or writes
such a property, but we carry it so that claims mentioning it can be
stated. -/
structure RequestConfig where
  url : String
  method : String
  headers : Option Headers
  retryFlag : Option Bool
deriving DecidableEq, Repr

/-- An HTTP response as axios presents it: status code and parsed body. -/
structure Response where
  status : Nat
  data : JsonValue

/-- An axios error: the originating config (`error.config`), the response
if one was received (`error.response`; `none` models a network failure
where no response arrived), and the error message. -/
structure AxiosError where
  config : Option RequestConfig
  response : Option Response
  message : String

/-- Outcome of `supabase.auth.getSession()` as observed by the request
interceptor: it resolves with an optional session, or the lookup itself
throws (caught by the interceptor at api.ts line 36). -/
inductive SessionLookup where
  | ok (session : Option Session) : SessionLookup
  | threw : SessionLookup
deriving DecidableEq, Repr

/-- The request interceptor (api.ts lines 19-40).  It wraps its body in
try/catch and returns the config on every path, so it never rejects the
request: with a session carrying a truthy (non-empty) access token it sets
`Authorization: Bearer <token>` on the headers, otherwise — no session,
empty token, absent headers, or a lookup that threw — it returns the
config unchanged. -/
def requestInterceptor (lookup : SessionLookup) (config : RequestConfig) :
    RequestConfig :=
  match lookup with
  | .threw => config
  | .ok none => config
  | .ok (some s) =>
      if s.access_token ≠ "" then
        match config.headers with
        | some h =>
            { config with headers := some { h with
                authorization := some ("Bearer " ++ s.access_token) } }
        | none => config
      else
        config

/-- Outcome of `supabase.auth.refreshSession()` as observed by the
response interceptor: resolves with a session and no error (`refreshed`),
resolves but with `refreshError` set or no session (`failed`), or the
call itself throws (`threw`, caught at api.ts line 82). -/
inductive RefreshOutcome where
  | refreshed (session : Session) : RefreshOutcome
  | failed : RefreshOutcome
  | threw : RefreshOutcome
deriving DecidableEq, Repr

/-- The settlement of a dispatched request: resolved with a response or
rejected with an error. -/
inductive Settled where
  | resolved (r : Response) : Settled
  | rejected (e : AxiosError) : Settled

/-- Observable side effects of one run of the response interceptor's
error handler: how many times `supabase.auth.refreshSession()` was
invoked, which configs were re-dispatched (via the bare `axios(...)`
call at api.ts line 80), and any assignment to `window.location.href`. -/
structure Effects where
  refreshCount : Nat
  retried : List RequestConfig
  navigation : Option String
deriving DecidableEq, Repr

/-- The error branch of the response interceptor (api.ts lines 45-104).

Environment parameters: `refresh` is what `refreshSession()` does when
called; `retryOutcome` is how the network settles the retried request —
the retry is dispatched through the bare `axios` default export (line 80),
which has no interceptors attached, so its settlement reaches the caller
directly and can never re-enter this handler; `windowDefined` is whether
`typeof window !== 'undefined'` (false during server-side rendering).

Returns the settlement handed to the caller together with the side
effects. -/
def responseInterceptorOnError (refresh : RefreshOutcome)
    (retryOutcome : Settled) (windowDefined : Bool) (error : AxiosError) :
    Settled × Effects :=
  let originalRequest := error.config
  match error.response with
  | some resp =>
      if resp.status = 401 then
        match refresh with
        | .failed =>
            -- refresh resolved with an error or without a session:
            -- redirect (browser only) and reject with the ORIGINAL error
            (Settled.rejected error,
             { refreshCount := 1, retried := [],
               navigation := if windowDefined then some "/login" else none })
        | .threw =>
            -- the catch block redirects (browser only); control then falls
            -- through to the final `return Promise.reject(error)`
            (Settled.rejected error,
             { refreshCount := 1, retried := [],
               navigation := if windowDefined then some "/login" else none })
        | .refreshed s =>
            match originalRequest with
            | some req =>
                match req.headers with
                | some h =>
                    -- set the new bearer token and re-dispatch through the
                    -- bare axios instance; its settlement is returned as is
                    let retriedReq := { req with headers := some { h with
                        authorization := some ("Bearer " ++ s.access_token) } }
                    (retryOutcome,
                     { refreshCount := 1, retried := [retriedReq],
                       navigation := none })
                | none =>
                    -- `originalRequest.headers` falsy: fall through to the
                    -- final rejection of the original error
                    (Settled.rejected error,
                     { refreshCount := 1, retried := [], navigation := none })
            | none =>
                (Settled.rejected error,
                 { refreshCount := 1, retried := [], navigation := none })
      else
        -- 403 and 404 branches only log; every non-401 status falls
        -- through to `return Promise.reject(error)`
        (Settled.rejected error,
         { refreshCount := 0, retried := [], navigation := none })
  | none =>
      -- no response received (network failure): the `Network Error`
      -- branch only logs, then the error is rejected unchanged
      (Settled.rejected error,
       { refreshCount := 0, retried := [], navigation := none })

/-- An error value as seen by a catch block in the domain-level
operations: either an axios error (for which `axios.isAxiosError` is
true) or anything else. -/
inductive CaughtError where
  | axios (e : AxiosError) : CaughtError
  | other : CaughtError

/-- The status-code switch of `handleApiError` (api.ts lines 116-129):
fixed messages for 400, 401, 403, 404 and 500, the caller-supplied
default for every other status and for an absent response. -/
def statusDefaultMessage (response : Option Response)
    (defaultMessage : String) : String :=
  match response with
  | none => defaultMessage
  | some r =>
      match r.status with
      | 400 => "Invalid request. Please check your data."
      | 401 => "Authentication required. Please log in."
      | 403 => "You don\x27t have permission to access this resource."
      | 404 => "The requested resource was not found."
      | 500 => "Server error. Please try again later."
      | _ => defaultMessage

/-- `handleApiError` (api.ts lines 108-133).  In the source the default
message parameter defaults to the string `An error occurred`; every
call site passes one explicitly.  A truthy `error.response?.data?.detail`
is returned as is (it may be any JSON value), otherwise the status-keyed
default; a non-axios error always yields the default message. -/
def handleApiError (error : CaughtError) (defaultMessage : String) :
    JsonValue :=
  match error with
  | .other => .str defaultMessage
  | .axios e =>
      let detail :=
        match e.response with
        | some r => r.data.get "detail"
        | none => none
      match detail with
      | some d =>
          if d.truthy then d else .str (statusDefaultMessage e.response defaultMessage)
      | none => .str (statusDefaultMessage e.response defaultMessage)

/-- The headers an `api.create` instance request starts with
(api.ts lines 10-16): JSON content type, no Authorization yet. -/
def apiBaseHeaders : Headers :=
  { contentType := "application/json", authorization := none }

/-- The request `getMovie` dispatches: `GET /movies/<id>`
(api.ts line 155), built for every identifier with no validation. -/
def getMovieRequest (id : String) : RequestConfig :=
  { url := "/movies/" ++ id, method := "get",
    headers := some apiBaseHeaders, retryFlag := none }

/-- `getMovie` (api.ts lines 153-161), modelled as the list of requests
it dispatches together with its result: it unconditionally issues
`GET /movies/<id>` and, on rejection, throws an `Error` whose message is
produced by `handleApiError` with default `Failed to fetch movie
details`.  There is no identifier validation in this function. -/
def getMovie (id : String) (outcome : Settled) :
    List RequestConfig × Except JsonValue JsonValue :=
  let req := getMovieRequest id
  match outcome with
  | .resolved r => ([req], .ok r.data)
  | .rejected e =>
      ([req], .error (handleApiError (.axios e) "Failed to fetch movie details"))

/-- Whether a character is matched by the regex class `[0-9a-fA-F]`. -/
def isHexDigit (c : Char) : Bool :=
  decide (('0' ≤ c ∧ c ≤ '9') ∨ ('a' ≤ c ∧ c ≤ 'f') ∨ ('A' ≤ c ∧ c ≤ 'F'))

/-- `isValidObjectId` from the movie-details page (src/unnamed/part_001
lines 16-19): falsy identifiers fail, otherwise the identifier must match
`[0-9a-fA-F]` repeated exactly 24 times, anchored at both ends. -/
def isValidObjectId (id : Option String) : Bool :=
  match id with
  | none => false
  | some s =>
      if s = "" then false
      else s.length == 24 && s.toList.all isHexDigit

/-- `validId` state of the movie-details page (src/unnamed/part_001
lines 35-53): the route identifier when it passes `isValidObjectId`,
otherwise `null`. -/
def validIdOf (id : Option String) : Option String :=
  match id with
  | some s => if isValidObjectId (some s) then some s else none
  | none => none

/-- The SWR key of the movie fetch in the movie-details page
(src/unnamed/part_001 lines 56-58): `movie-<id>` when `validId` is set,
otherwise `null`, in which case no fetcher runs and `getMovie` is never
called. -/
def movieSWRKey (id : Option String) : Option String :=
  (validIdOf id).map (fun s => "movie-" ++ s)

/-- The normalization shared by `getUserRecommendations` (api.ts lines
206-220) and `getPopularMovies` (api.ts lines 261-275): a bare array is
returned as is; otherwise a truthy payload with an array under the
`recommendations` key yields that array; anything else yields the empty
list, with the second component recording that the unexpected-format
warning was logged. -/
def extractRecommendations (data : JsonValue) : List JsonValue × Bool :=
  match data with
  | .arr xs => (xs, false)
  | _ =>
      if data.truthy then
        match data.get "recommendations" with
        | some (.arr xs) => (xs, false)
        | _ => ([], true)
      else
        ([], true)

/-- Whether the payload matches a shape `getUserRecommendations` and
`getPopularMovies` recognise: a bare array, or a truthy value carrying an
array under `recommendations`. -/
def matchesKnownShape (data : JsonValue) : Bool :=
  data.isArray ||
    (data.truthy &&
      (match data.get "recommendations" with
       | some v => v.isArray
       | none => false))

/-- `getUserRecommendations` (api.ts lines 201-225): normalizes a
resolved payload with `extractRecommendations`; a rejection is rethrown
through `handleApiError`. -/
def getUserRecommendations (outcome : Settled) :
    Except JsonValue (List JsonValue × Bool) :=
  match outcome with
  | .resolved r => .ok (extractRecommendations r.data)
  | .rejected e =>
      .error (handleApiError (.axios e) "Failed to fetch recommendations")

/-- `getPopularMovies` (api.ts lines 257-280): identical normalization,
different default error message. -/
def getPopularMovies (outcome : Settled) :
    Except JsonValue (List JsonValue × Bool) :=
  match outcome with
  | .resolved r => .ok (extractRecommendations r.data)
  | .rejected e =>
      .error (handleApiError (.axios e) "Failed to fetch popular movies")

/-- The keys of a JSON object, in order. -/
def JsonValue.keys : JsonValue → List String
  | .obj fields => fields.map Prod.fst
  | _ => []

/-- The payload `createInteraction` POSTs to `/interactions`
(api.ts lines 176-183).  The source defaults `type` to the string `view`
(a default parameter, hence also applied when `undefined` is passed,
modelled by `Option.getD`), and spreads `\x7b value \x7d` into the object
only when `value !== undefined`. -/
def createInteractionPayload (userId : String) (movieId : String)
    (type : Option String) (value : Option Int) : JsonValue :=
  .obj ([("userId", .str userId), ("movieId", .str movieId),
         ("type", .str (type.getD "view"))] ++
        (match value with
         | some v => [("value", .num v)]
         | none => []))

/-! ## Sample values used by witnesses and counterexamples -/

/-- A plain request through the gateway instance. -/
def sampleRequest : RequestConfig :=
  { url := "/movies", method := "get",
    headers := some apiBaseHeaders, retryFlag := none }

/-- A 401 rejection of `sampleRequest`. -/
def sample401 : AxiosError :=
  { config := some sampleRequest,
    response := some { status := 401, data := JsonValue.null },
    message := "Request failed with status code 401" }

/-- A request descriptor that already carries `_retry := true`. -/
def flaggedRequest : RequestConfig :=
  { url := "/movies/123", method := "get",
    headers := some apiBaseHeaders, retryFlag := some true }

/-- A 401 rejection of the already-flagged request. -/
def flagged401 : AxiosError :=
  { config := some flaggedRequest,
    response := some { status := 401, data := JsonValue.null },
    message := "Request failed with status code 401" }

/-! ## Claims about the response interceptor -/

/-- C1: for every request that receives a 401 response, the error handler
invokes the credential refresh exactly once and re-dispatches at most one
request; since the quantification includes every settlement of the retried
request — in particular a rejection carrying a second 401 — a 401 on the
retried request never causes a second refresh. -/
theorem at_most_one_refresh_cycle
    (refresh : RefreshOutcome) (retryOutcome : Settled) (w : Bool)
    (error : AxiosError) (resp : Response)
    (hresp : error.response = some resp) (hstatus : resp.status = 401) :
    (responseInterceptorOnError refresh retryOutcome w error).2.refreshCount = 1 ∧
    (responseInterceptorOnError refresh retryOutcome w error).2.retried.length ≤ 1 := by
  cases refresh with
  | failed => simp [responseInterceptorOnError, hresp, hstatus]
  | threw => simp [responseInterceptorOnError, hresp, hstatus]
  | refreshed s =>
      cases hcfg : error.config with
      | none => simp [responseInterceptorOnError, hresp, hstatus, hcfg]
      | some req =>
          cases hh : req.headers with
          | none => simp [responseInterceptorOnError, hresp, hstatus, hcfg, hh]
          | some h => simp [responseInterceptorOnError, hresp, hstatus, hcfg, hh]

/-- Witness for C1, with the retried request itself settling in a second
401 rejection. -/
theorem at_most_one_refresh_cycle_witness :
    (responseInterceptorOnError RefreshOutcome.failed
        (Settled.rejected sample401) true sample401).2.refreshCount = 1 ∧
    (responseInterceptorOnError RefreshOutcome.failed
        (Settled.rejected sample401) true sample401).2.retried.length ≤ 1 :=
  at_most_one_refresh_cycle RefreshOutcome.failed (Settled.rejected sample401)
    true sample401 { status := 401, data := JsonValue.null } rfl rfl

/-- C2 counterexample: a request descriptor whose `_retry` property is
already `true` receives a 401, yet the handler still performs a refresh
(`refreshCount = 1`, not 0), still issues a retry, and settles with the
retried response rather than propagating the error immediately — the
source never consults a `_retry` flag. -/
theorem retry_flag_not_honored :
    responseInterceptorOnError
        (RefreshOutcome.refreshed { access_token := "tok2", refresh_token := "r2" })
        (Settled.resolved { status := 200, data := JsonValue.null })
        true flagged401 =
      (Settled.resolved { status := 200, data := JsonValue.null },
       { refreshCount := 1,
         retried := [{ flaggedRequest with headers := some { apiBaseHeaders with
             authorization := some ("Bearer " ++ "tok2") } }],
         navigation := none }) := rfl

/-- C2 amended: the handler maintains no `_retry` marker at all.  A 401
triggers a refresh attempt regardless of any `_retry` property on the
descriptor, and the retried request carries the original descriptor's
`_retry` value unchanged — the marker is never set.  (Recursion is
instead prevented because the retry goes through the bare axios instance,
which has no response interceptor.) -/
theorem no_retry_marker_maintained
    (refresh : RefreshOutcome) (retryOutcome : Settled) (w : Bool)
    (error : AxiosError) (resp : Response) (req : RequestConfig)
    (hresp : error.response = some resp) (hstatus : resp.status = 401)
    (hcfg : error.config = some req) :
    (responseInterceptorOnError refresh retryOutcome w error).2.refreshCount = 1 ∧
    ∀ r ∈ (responseInterceptorOnError refresh retryOutcome w error).2.retried,
      r.retryFlag = req.retryFlag := by
  cases refresh with
  | failed => simp [responseInterceptorOnError, hresp, hstatus]
  | threw => simp [responseInterceptorOnError, hresp, hstatus]
  | refreshed s =>
      cases hh : req.headers with
      | none => simp [responseInterceptorOnError, hresp, hstatus, hcfg, hh]
      | some h =>
          refine ⟨by simp [responseInterceptorOnError, hresp, hstatus, hcfg, hh], ?_⟩
          intro r hr
          simp [responseInterceptorOnError, hresp, hstatus, hcfg, hh] at hr
          subst hr
          rfl

/-- Witness for the amended C2, at the flagged request. -/
theorem no_retry_marker_maintained_witness :
    (responseInterceptorOnError
        (RefreshOutcome.refreshed { access_token := "t", refresh_token := "r" })
        (Settled.resolved { status := 200, data := JsonValue.null })
        true flagged401).2.refreshCount = 1 ∧
    ∀ r ∈ (responseInterceptorOnError
        (RefreshOutcome.refreshed { access_token := "t", refresh_token := "r" })
        (Settled.resolved { status := 200, data := JsonValue.null })
        true flagged401).2.retried, r.retryFlag = flaggedRequest.retryFlag :=
  no_retry_marker_maintained
    (RefreshOutcome.refreshed { access_token := "t", refresh_token := "r" })
    (Settled.resolved { status := 200, data := JsonValue.null })
    true flagged401 { status := 401, data := JsonValue.null } flaggedRequest
    rfl rfl rfl

/-- C3: on a 401 with the original config and headers available, a
successful refresh makes the caller receive the retried request's
settlement (in particular its response when it resolves), while a failed
or throwing refresh propagates the ORIGINAL 401 error — not the refresh
error — and navigates to `/login` exactly when the browser location
exists (`w`), never during server-side rendering. -/
theorem refresh_outcome_drives_settlement
    (refresh : RefreshOutcome) (retryOutcome : Settled) (w : Bool)
    (error : AxiosError) (resp : Response) (req : RequestConfig) (h : Headers)
    (hresp : error.response = some resp) (hstatus : resp.status = 401)
    (hcfg : error.config = some req) (hh : req.headers = some h) :
    (∀ s r, refresh = RefreshOutcome.refreshed s →
        retryOutcome = Settled.resolved r →
        (responseInterceptorOnError refresh retryOutcome w error).1 =
          Settled.resolved r) ∧
    (refresh = RefreshOutcome.failed ∨ refresh = RefreshOutcome.threw →
        (responseInterceptorOnError refresh retryOutcome w error).1 =
          Settled.rejected error ∧
        (responseInterceptorOnError refresh retryOutcome w error).2.navigation =
          (if w then some "/login" else none)) := by
  cases refresh with
  | failed =>
      refine ⟨?_, ?_⟩
      · intro s r hs hr
        cases hs
      intro hc
      constructor <;> simp [responseInterceptorOnError, hresp, hstatus]
  | threw =>
      refine ⟨?_, ?_⟩
      · intro s r hs hr
        cases hs
      intro hc
      constructor <;> simp [responseInterceptorOnError, hresp, hstatus]
  | refreshed s0 =>
      refine ⟨?_, ?_⟩
      · intro s r hs hr
        cases hs
        cases hr
        simp [responseInterceptorOnError, hresp, hstatus, hcfg, hh]
      · intro hc
        rcases hc with hc | hc <;> cases hc

/-- Witness for C3: refresh fails with the browser present. -/
theorem refresh_outcome_drives_settlement_witness :
    (∀ s r, RefreshOutcome.failed = RefreshOutcome.refreshed s →
        Settled.rejected sample401 = Settled.resolved r →
        (responseInterceptorOnError RefreshOutcome.failed
            (Settled.rejected sample401) true sample401).1 =
          Settled.resolved r) ∧
    (RefreshOutcome.failed = RefreshOutcome.failed ∨
        RefreshOutcome.failed = RefreshOutcome.threw →
        (responseInterceptorOnError RefreshOutcome.failed
            (Settled.rejected sample401) true sample401).1 =
          Settled.rejected sample401 ∧
        (responseInterceptorOnError RefreshOutcome.failed
            (Settled.rejected sample401) true sample401).2.navigation =
          (if true then some "/login" else none)) :=
  refresh_outcome_drives_settlement RefreshOutcome.failed
    (Settled.rejected sample401) true sample401
    { status := 401, data := JsonValue.null } sampleRequest apiBaseHeaders
    rfl rfl rfl rfl

/-! ## Claims about identifier validation and error classification -/

/-- C4 counterexample: `zzz` fails the 24-hex-character check, yet
`getMovie` still dispatches `GET /movies/zzz` and, when the network
resolves, returns the body — it neither fails fast nor skips the network
call for a malformed identifier. -/
theorem getMovie_dispatches_without_validation :
    isValidObjectId (some "zzz") = false ∧
    getMovie "zzz" (Settled.resolved { status := 200, data := JsonValue.null }) =
      ([getMovieRequest "zzz"], Except.ok JsonValue.null) := by
  constructor <;> rfl

/-- C4 amended: `getMovie` itself performs no validation — it dispatches
exactly one request for every identifier; the 24-hex validation lives in
the movie-details page, whose SWR key is `none` for a malformed
identifier, so that page starts no fetch (and hence no network call)
for it. -/
theorem movie_lookup_validated_at_page
    (id : String) (outcome : Settled)
    (hmal : isValidObjectId (some id) = false) :
    (getMovie id outcome).1 = [getMovieRequest id] ∧
    movieSWRKey (some id) = none := by
  constructor
  · cases outcome <;> rfl
  · simp [movieSWRKey, validIdOf, hmal]

/-- Witness for the amended C4, at the malformed identifier `zzz`. -/
theorem movie_lookup_validated_at_page_witness :
    (getMovie "zzz" (Settled.resolved { status := 200, data := JsonValue.null })).1 =
      [getMovieRequest "zzz"] ∧
    movieSWRKey (some "zzz") = none :=
  movie_lookup_validated_at_page "zzz"
    (Settled.resolved { status := 200, data := JsonValue.null }) rfl

/-- A rejection where no response was received at all. -/
def networkFailure : AxiosError :=
  { config := some sampleRequest, response := none,
    message := "Network Error" }

/-- A rejection with a status code that has no dedicated message case. -/
def teapotError : AxiosError :=
  { config := some sampleRequest,
    response := some { status := 418, data := JsonValue.obj [] },
    message := "Request failed with status code 418" }

/-- C5 counterexample: the message surfaced for a network failure equals
the one surfaced for an uncategorized status code (418) — both are the
caller-supplied default — so no distinguished network-unreachable
category exists. -/
theorem network_error_not_distinguished :
    handleApiError (CaughtError.axios networkFailure) "Failed to fetch movies" =
      handleApiError (CaughtError.axios teapotError) "Failed to fetch movies" ∧
    handleApiError (CaughtError.axios networkFailure) "Failed to fetch movies" =
      JsonValue.str "Failed to fetch movies" := by
  constructor <;> rfl

/-- C5 amended: on a rejection with no response received, the handler
performs no refresh, no retry and no navigation and propagates the error,
and the surfaced message is the operation's default message — the same
value any status without a dedicated case produces; no distinguished
network-unreachable category exists in the code. -/
theorem network_failure_no_retry_default_message
    (refresh : RefreshOutcome) (retryOutcome : Settled) (w : Bool)
    (error : AxiosError) (dm : String)
    (hnone : error.response = none) :
    (responseInterceptorOnError refresh retryOutcome w error).1 =
      Settled.rejected error ∧
    (responseInterceptorOnError refresh retryOutcome w error).2 =
      { refreshCount := 0, retried := [], navigation := none } ∧
    handleApiError (CaughtError.axios error) dm = JsonValue.str dm := by
  refine ⟨?_, ?_, ?_⟩
  · simp [responseInterceptorOnError, hnone]
  · simp [responseInterceptorOnError, hnone]
  · simp [handleApiError, statusDefaultMessage, hnone]

/-- Witness for the amended C5, at a concrete network failure. -/
theorem network_failure_no_retry_default_message_witness :
    (responseInterceptorOnError RefreshOutcome.failed
        (Settled.rejected networkFailure) true networkFailure).1 =
      Settled.rejected networkFailure ∧
    (responseInterceptorOnError RefreshOutcome.failed
        (Settled.rejected networkFailure) true networkFailure).2 =
      { refreshCount := 0, retried := [], navigation := none } ∧
    handleApiError (CaughtError.axios networkFailure) "Failed to fetch movies" =
      JsonValue.str "Failed to fetch movies" :=
  network_failure_no_retry_default_message RefreshOutcome.failed
    (Settled.rejected networkFailure) true networkFailure
    "Failed to fetch movies" rfl

/-- A 403 rejection of `sampleRequest`. -/
def forbidden403 : AxiosError :=
  { config := some sampleRequest,
    response := some { status := 403, data := JsonValue.null },
    message := "Request failed with status code 403" }

/-- C6 counterexample: on a 403 the handler propagates the error with no
retry, but performs no navigation to the login entry point even with the
browser location available — the 403 branch only logs, and the handler
never consults the session, so the redirect the claim requires for the
no-active-session case cannot occur. -/
theorem forbidden_no_redirect :
    responseInterceptorOnError RefreshOutcome.failed
        (Settled.rejected forbidden403) true forbidden403 =
      (Settled.rejected forbidden403,
       { refreshCount := 0, retried := [], navigation := none }) := rfl

/-- C6 amended: on a 403 no retry or refresh occurs and the error
propagates; the handler performs no redirect, whether or not an active
session exists (its output never depends on the session at all). -/
theorem forbidden_propagates_without_redirect
    (refresh : RefreshOutcome) (retryOutcome : Settled) (w : Bool)
    (error : AxiosError) (resp : Response)
    (hresp : error.response = some resp) (hstatus : resp.status = 403) :
    (responseInterceptorOnError refresh retryOutcome w error).1 =
      Settled.rejected error ∧
    (responseInterceptorOnError refresh retryOutcome w error).2 =
      { refreshCount := 0, retried := [], navigation := none } := by
  constructor <;> simp [responseInterceptorOnError, hresp, hstatus]

/-- Witness for the amended C6, at the concrete 403 rejection. -/
theorem forbidden_propagates_without_redirect_witness :
    (responseInterceptorOnError RefreshOutcome.threw
        (Settled.rejected forbidden403) false forbidden403).1 =
      Settled.rejected forbidden403 ∧
    (responseInterceptorOnError RefreshOutcome.threw
        (Settled.rejected forbidden403) false forbidden403).2 =
      { refreshCount := 0, retried := [], navigation := none } :=
  forbidden_propagates_without_redirect RefreshOutcome.threw
    (Settled.rejected forbidden403) false forbidden403
    { status := 403, data := JsonValue.null } rfl rfl

/-! ## Claims about response normalization, error messages, the request
interceptor and the interaction payload -/

/-- C7: the recommendation normalization maps a bare list and a payload
wrapped as an object with that list under `recommendations` to the same
output list with no warning, maps any payload matching no known shape to
the empty list with the warning logged, and both recommendation read
operations apply exactly this normalization to a resolved payload. -/
theorem recommendations_normalization_round_trip
    (L : List JsonValue) (resp : Response) (data : JsonValue)
    (hnoshape : matchesKnownShape data = false) :
    extractRecommendations (JsonValue.arr L) = (L, false) ∧
    extractRecommendations (JsonValue.obj [("recommendations", JsonValue.arr L)]) =
      (L, false) ∧
    extractRecommendations data = ([], true) ∧
    getUserRecommendations (Settled.resolved resp) =
      Except.ok (extractRecommendations resp.data) ∧
    getPopularMovies (Settled.resolved resp) =
      Except.ok (extractRecommendations resp.data) := by
  refine ⟨rfl, rfl, ?_, rfl, rfl⟩
  cases data with
  | arr xs => simp [matchesKnownShape, JsonValue.isArray] at hnoshape
  | obj fields =>
      simp only [matchesKnownShape, JsonValue.isArray, JsonValue.truthy,
        Bool.false_or, Bool.true_and, JsonValue.get] at hnoshape
      simp only [extractRecommendations, JsonValue.truthy, JsonValue.get,
        if_true]
      cases hlk : fields.lookup "recommendations" with
      | none => simp [hlk]
      | some v =>
          rw [hlk] at hnoshape
          cases v <;> simp_all [JsonValue.isArray]
  | null => rfl
  | bool b => cases b <;> rfl
  | num n =>
      simp only [extractRecommendations, JsonValue.truthy]
      by_cases hn : n = 0
      · simp [hn]
      · simp [hn, JsonValue.get]
  | str t =>
      simp only [extractRecommendations, JsonValue.truthy]
      by_cases ht : t = ""
      · simp [ht]
      · simp [ht, JsonValue.get]

/-- Witness for C7: a one-element list, a resolved response, and an
object payload with no known list field. -/
theorem recommendations_normalization_round_trip_witness :
    extractRecommendations (JsonValue.arr [JsonValue.str "m"]) =
      ([JsonValue.str "m"], false) ∧
    extractRecommendations
        (JsonValue.obj [("recommendations", JsonValue.arr [JsonValue.str "m"])]) =
      ([JsonValue.str "m"], false) ∧
    extractRecommendations (JsonValue.obj [("results", JsonValue.null)]) =
      ([], true) ∧
    getUserRecommendations
        (Settled.resolved { status := 200, data := JsonValue.arr [JsonValue.str "m"] }) =
      Except.ok (extractRecommendations (JsonValue.arr [JsonValue.str "m"])) ∧
    getPopularMovies
        (Settled.resolved { status := 200, data := JsonValue.arr [JsonValue.str "m"] }) =
      Except.ok (extractRecommendations (JsonValue.arr [JsonValue.str "m"])) :=
  recommendations_normalization_round_trip [JsonValue.str "m"]
    { status := 200, data := JsonValue.arr [JsonValue.str "m"] }
    (JsonValue.obj [("results", JsonValue.null)]) rfl

/-- The 404 rejection of the scenario lookup, with no backend detail. -/
def movie404 : AxiosError :=
  { config := some (getMovieRequest "507f1f77bcf86cd799439011"),
    response := some { status := 404, data := JsonValue.obj [] },
    message := "Request failed with status code 404" }

/-- C8 counterexample: a movie lookup rejected with a detail-free 404
surfaces the status-keyed default `The requested resource was not
found.`, which is not the string `Movie not found` the claim requires
(that string exists only in the details page's own error handling). -/
theorem movie_404_message_counterexample :
    (getMovie "507f1f77bcf86cd799439011" (Settled.rejected movie404)).2 =
      Except.error (JsonValue.str "The requested resource was not found.") ∧
    ("The requested resource was not found." : String) ≠ "Movie not found" := by
  constructor
  · rfl
  · decide

/-- C8 amended: a truthy backend detail is surfaced verbatim; with no
detail the message is the status-keyed default (the caller's default for
statuses without a dedicated case), a detail-free 404 surfacing `The
requested resource was not found.`; and a 404 triggers no refresh, no
retry and no navigation. -/
theorem api_error_message_selection
    (e : AxiosError) (dm : String) (refresh : RefreshOutcome)
    (retryOutcome : Settled) (w : Bool) :
    (∀ resp d, e.response = some resp → resp.data.get "detail" = some d →
        d.truthy = true → handleApiError (CaughtError.axios e) dm = d) ∧
    (∀ resp, e.response = some resp → resp.data.get "detail" = none →
        handleApiError (CaughtError.axios e) dm =
          JsonValue.str (statusDefaultMessage (some resp) dm)) ∧
    (∀ resp, e.response = some resp → resp.status = 404 →
        resp.data.get "detail" = none →
        handleApiError (CaughtError.axios e) dm =
          JsonValue.str "The requested resource was not found.") ∧
    (∀ resp, e.response = some resp → resp.status = 404 →
        (responseInterceptorOnError refresh retryOutcome w e).2 =
          { refreshCount := 0, retried := [], navigation := none }) := by
  refine ⟨?_, ?_, ?_, ?_⟩
  · intro resp d hresp hdet htr
    simp [handleApiError, hresp, hdet, htr]
  · intro resp hresp hdet
    simp [handleApiError, hresp, hdet]
  · intro resp hresp h404 hdet
    simp [handleApiError, statusDefaultMessage, hresp, hdet, h404]
  · intro resp hresp h404
    simp [responseInterceptorOnError, hresp, h404]

/-- Witness for the amended C8, at the detail-free 404 of the scenario
lookup. -/
theorem api_error_message_selection_witness :
    (∀ resp d, movie404.response = some resp →
        resp.data.get "detail" = some d → d.truthy = true →
        handleApiError (CaughtError.axios movie404)
          "Failed to fetch movie details" = d) ∧
    (∀ resp, movie404.response = some resp → resp.data.get "detail" = none →
        handleApiError (CaughtError.axios movie404)
          "Failed to fetch movie details" =
          JsonValue.str (statusDefaultMessage (some resp)
            "Failed to fetch movie details")) ∧
    (∀ resp, movie404.response = some resp → resp.status = 404 →
        resp.data.get "detail" = none →
        handleApiError (CaughtError.axios movie404)
          "Failed to fetch movie details" =
          JsonValue.str "The requested resource was not found.") ∧
    (∀ resp, movie404.response = some resp → resp.status = 404 →
        (responseInterceptorOnError RefreshOutcome.failed
            (Settled.rejected movie404) true movie404).2 =
          { refreshCount := 0, retried := [], navigation := none }) :=
  api_error_message_selection movie404 "Failed to fetch movie details"
    RefreshOutcome.failed (Settled.rejected movie404) true

/-- C9: the request interceptor always hands a config on to dispatch —
its try/catch returns one on every path.  With a session carrying a
non-empty access token it sets the Authorization header to the non-empty
string `Bearer <token>`; with no session, with a session whose token is
empty, or when the lookup itself threw, the config goes out unchanged —
in particular with no Authorization header when it had none. -/
theorem request_interceptor_never_blocks
    (lookup : SessionLookup) (config : RequestConfig)
    (s : Session) (h : Headers) :
    (lookup = SessionLookup.ok (some s) → s.access_token ≠ "" →
        config.headers = some h →
        (requestInterceptor lookup config).headers =
          some { h with authorization := some ("Bearer " ++ s.access_token) } ∧
        "Bearer " ++ s.access_token ≠ "") ∧
    (lookup = SessionLookup.ok none ∨ lookup = SessionLookup.threw →
        requestInterceptor lookup config = config) ∧
    (lookup = SessionLookup.ok (some s) → s.access_token = "" →
        requestInterceptor lookup config = config) := by
  refine ⟨?_, ?_, ?_⟩
  · intro hl htok hh
    subst hl
    constructor
    · simp [requestInterceptor, htok, hh]
    · intro hc
      have hlen := congrArg String.length hc
      rw [String.length_append] at hlen
      have h7 : ("Bearer " : String).length = 7 := rfl
      have h0 : ("" : String).length = 0 := rfl
      rw [h7, h0] at hlen
      omega
  · intro hl
    rcases hl with hl | hl <;> subst hl <;> rfl
  · intro hl htok
    subst hl
    simp [requestInterceptor, htok]

/-- Witness for C9: a live session with token `tok`, and a lookup that
threw, both on the gateway's base config. -/
theorem request_interceptor_never_blocks_witness :
    (SessionLookup.ok (some { access_token := "tok", refresh_token := "r" }) =
        SessionLookup.ok (some { access_token := "tok", refresh_token := "r" }) →
      ({ access_token := "tok", refresh_token := "r" } : Session).access_token ≠ "" →
      sampleRequest.headers = some apiBaseHeaders →
      (requestInterceptor
          (SessionLookup.ok (some { access_token := "tok", refresh_token := "r" }))
          sampleRequest).headers =
        some { apiBaseHeaders with authorization := some ("Bearer " ++ "tok") } ∧
      "Bearer " ++ ({ access_token := "tok", refresh_token := "r" } : Session).access_token ≠ "") ∧
    (SessionLookup.ok (some { access_token := "tok", refresh_token := "r" }) =
          SessionLookup.ok none ∨
        SessionLookup.ok (some { access_token := "tok", refresh_token := "r" }) =
          SessionLookup.threw →
      requestInterceptor
          (SessionLookup.ok (some { access_token := "tok", refresh_token := "r" }))
          sampleRequest = sampleRequest) ∧
    (SessionLookup.ok (some { access_token := "tok", refresh_token := "r" }) =
        SessionLookup.ok (some { access_token := "tok", refresh_token := "r" }) →
      ({ access_token := "tok", refresh_token := "r" } : Session).access_token = "" →
      requestInterceptor
          (SessionLookup.ok (some { access_token := "tok", refresh_token := "r" }))
          sampleRequest = sampleRequest) :=
  request_interceptor_never_blocks
    (SessionLookup.ok (some { access_token := "tok", refresh_token := "r" }))
    sampleRequest { access_token := "tok", refresh_token := "r" } apiBaseHeaders

/-- C10: the interaction payload carries exactly `userId`, `movieId` and
`type` — the latter defaulting to `view` when the argument is omitted —
plus a `value` field exactly when the value argument is defined: a
defined `0` is included as `0`, an undefined value leaves the field
absent rather than null. -/
theorem interaction_payload_fields
    (userId : String) (movieId : String)
    (type : Option String) (value : Option Int) :
    (createInteractionPayload userId movieId type value).keys =
      ["userId", "movieId", "type"] ++
        (if value.isSome then ["value"] else []) ∧
    (createInteractionPayload userId movieId type value).get "userId" =
      some (JsonValue.str userId) ∧
    (createInteractionPayload userId movieId type value).get "movieId" =
      some (JsonValue.str movieId) ∧
    (createInteractionPayload userId movieId type value).get "type" =
      some (JsonValue.str (type.getD "view")) ∧
    (createInteractionPayload userId movieId type value).get "value" =
      value.map JsonValue.num := by
  cases value <;> exact ⟨rfl, rfl, rfl, rfl, rfl⟩

end Gateway
